import Mathlib

/-!
# Consultation lifecycle of the health-link-aid schema, shallowly embedded

This file embeds the data model, row-level security policies and trigger
functions of the two `supabase/migrations` SQL files, together with the
client-side operations (`handleSubmit` in the booking page, `confirmPayment`
in `Payment.tsx`, `updateConsultationStatus` in `AdminDashboard.tsx`), and
proves the lifecycle / authorization / notification properties stated in the
specification.

Modelling conventions:
* UUIDs are `Nat`; timestamps are `Nat` (an abstract monotone clock);
  `DECIMAL(10,2)` amounts are `Nat` in whole currency units (all amounts in
  the code are whole numbers: 50, 40, 30).
* A nullable SQL column is an `Option`.
* An actor carries the authenticated id (`auth.uid()`) and the role that
  `public.get_current_user_role()` resolves for it (the `COALESCE` default
  `'user'` is the role carried by an actor with no profile row).
* PostgreSQL row-level security with several permissive policies allows an
  operation when the disjunction of the `USING` clauses holds on the old
  row, and — for `UPDATE` — the disjunction of the `WITH CHECK` clauses
  (each defaulting to the policy's `USING` clause) holds on the new row.
  A denied or check-failing update affects zero rows.
* The `BEFORE UPDATE` trigger `update_updated_at_column` rewrites
  `updated_at` before the new row is checked and stored; the `AFTER UPDATE`
  trigger `notify_consultation_status_change` then sees the stored old and
  new rows and returns the list of notification rows it inserts.
-/

namespace HealthLink

/-- `profiles.role`: `CHECK (role IN ('user', 'admin'))`. -/
inductive Role where
  | user
  | admin
deriving DecidableEq, Repr

/-- `consultations.status`:
`CHECK (status IN ('pending', 'approved', 'declined', 'completed', 'cancelled'))`. -/
inductive Status where
  | pending
  | approved
  | declined
  | completed
  | cancelled
deriving DecidableEq, Repr

/-- `consultations.payment_status`:
`CHECK (payment_status IN ('unpaid', 'paid', 'refunded'))`. -/
inductive PaymentStatus where
  | unpaid
  | paid
  | refunded
deriving DecidableEq, Repr

/-- `consultations.consultation_type`:
`CHECK (consultation_type IN ('video_call', 'phone_call', 'chat'))`. -/
inductive ConsultationType where
  | video_call
  | phone_call
  | chat
deriving DecidableEq, Repr

/-- One row of `public.consultations`. -/
structure Consultation where
  id : Nat
  user_id : Nat
  doctor_name : String
  consultation_type : ConsultationType
  preferred_date : String
  preferred_time : String
  symptoms : String
  status : Status
  payment_status : PaymentStatus
  amount : Nat
  bank_account_id : Option Nat
  admin_notes : Option String
  created_at : Nat
  updated_at : Nat
deriving DecidableEq, Repr

/-- One row of `public.notifications` (the generated `id` column is left out;
nothing in the code reads it back). -/
structure Notification where
  user_id : Nat
  consultation_id : Option Nat
  title : String
  message : String
  is_read : Bool
  created_at : Nat
deriving DecidableEq, Repr

/-- One row of `public.profiles` (the auxiliary `full_name` column is kept,
the rest of the row is not touched by any claim-relevant operation). -/
structure Profile where
  user_id : Nat
  full_name : Option String
  role : Role
  created_at : Nat
  updated_at : Nat
deriving DecidableEq, Repr

/-- An authenticated request context: `auth.uid()` plus the role its profile
row resolves to. -/
structure Actor where
  uid : Nat
  role : Role
deriving DecidableEq, Repr

/-- `public.get_current_user_role()`: the role of the caller's profile row,
`COALESCE`-defaulted to `'user'`; the default is folded into `Actor.role`. -/
def get_current_user_role (a : Actor) : Role :=
  a.role

/-! ## Row-level security predicates (migration `20250916144219`) -/

/-- `USING` of "Users can view their own consultations" disjoined with
`USING` of "Admins can view all consultations". -/
def consultations_select_using (a : Actor) (c : Consultation) : Bool :=
  a.uid == c.user_id || get_current_user_role a == Role.admin

/-- `WITH CHECK` of "Users can create their own consultations". -/
def consultations_insert_check (a : Actor) (c : Consultation) : Bool :=
  a.uid == c.user_id

/-- `USING` of "Users can update their own consultations" disjoined with
`USING` of "Admins can update all consultations", evaluated on the old row. -/
def consultations_update_using (a : Actor) (c : Consultation) : Bool :=
  a.uid == c.user_id || get_current_user_role a == Role.admin

/-- The implicit `WITH CHECK` of the same two update policies (each defaults
to its `USING` clause), evaluated on the new row. -/
def consultations_update_check (a : Actor) (c : Consultation) : Bool :=
  a.uid == c.user_id || get_current_user_role a == Role.admin

/-- `USING` of "Users can view their own notifications". -/
def notifications_select_using (a : Actor) (n : Notification) : Bool :=
  a.uid == n.user_id

/-- `USING` (and implicit `WITH CHECK`) of "Users can update their own
notifications". -/
def notifications_update_using (a : Actor) (n : Notification) : Bool :=
  a.uid == n.user_id

/-- `USING` (and implicit `WITH CHECK`) of "Users can update their own
profile" (migration `20250916144359`). -/
def profiles_update_using (a : Actor) (p : Profile) : Bool :=
  a.uid == p.user_id

/-! ## Trigger functions -/

/-- `public.update_updated_at_column()`: `NEW.updated_at = now()`. -/
def update_updated_at_column (clock : Nat) (c : Consultation) : Consultation :=
  { c with updated_at := clock }

/-- `public.notify_consultation_status_change()`: the notification rows the
`AFTER UPDATE` trigger inserts for one update, given the old and new rows.
`'Reason: ' || NEW.admin_notes` is NULL exactly when `admin_notes` is NULL,
so the `COALESCE` falls back to the contact-support text only in that case. -/
def notify_consultation_status_change (old new : Consultation) (clock : Nat) :
    List Notification :=
  if new.status ≠ old.status ∧
      (new.status = Status.approved ∨ new.status = Status.declined) then
    [ { user_id := new.user_id
      , consultation_id := some new.id
      , title :=
          if new.status = Status.approved then "Consultation Approved ✅"
          else "Consultation Declined ❌"
      , message :=
          if new.status = Status.approved then
            "Your consultation request has been approved! You will receive further details soon."
          else
            "Your consultation request has been declined. " ++
              (match new.admin_notes with
               | some notes => "Reason: " ++ notes
               | none => "Please contact support for more information.")
      , is_read := false
      , created_at := clock } ]
  else []

/-! ## Operations -/

/-- The column assignments of one `UPDATE public.consultations SET ...`
statement: `some v` means the column is set to `v`, `none` that the column
is not mentioned. (Columns no code path ever sets are omitted.) -/
structure ConsultationUpdate where
  set_status : Option Status
  set_payment_status : Option PaymentStatus
  set_admin_notes : Option (Option String)
  set_bank_account_id : Option (Option Nat)
  set_user_id : Option Nat
deriving DecidableEq, Repr

/-- Apply the `SET` list to a row. -/
def applySet (u : ConsultationUpdate) (c : Consultation) : Consultation :=
  { c with
      status := u.set_status.getD c.status
    , payment_status := u.set_payment_status.getD c.payment_status
    , admin_notes := u.set_admin_notes.getD c.admin_notes
    , bank_account_id := u.set_bank_account_id.getD c.bank_account_id
    , user_id := u.set_user_id.getD c.user_id }

/-- One row-level `UPDATE` of `public.consultations` by actor `a` at clock
time `clock`: policy `USING` on the old row, the `BEFORE UPDATE` timestamp
trigger, policy `WITH CHECK` on the new row, then the `AFTER UPDATE`
notification trigger.  `none` is the zero-rows outcome (denied or
check-rejected: the stored row is unchanged and nothing is inserted);
`some (c', ns)` is the stored new row together with the notification rows
inserted in the same atomic unit. -/
def applyUpdate (a : Actor) (clock : Nat) (u : ConsultationUpdate)
    (c : Consultation) : Option (Consultation × List Notification) :=
  if consultations_update_using a c then
    let newRow := update_updated_at_column clock (applySet u c)
    if consultations_update_check a newRow then
      some (newRow, notify_consultation_status_change c newRow clock)
    else none
  else none

/-- The consultation row as stored after an attempted update: the new row on
success, the untouched old row on a zero-rows outcome. -/
def rowAfterUpdate (a : Actor) (clock : Nat) (u : ConsultationUpdate)
    (c : Consultation) : Consultation :=
  match applyUpdate a clock u c with
  | some (c', _) => c'
  | none => c

/-- Row-level `SELECT` of one consultation row: the row when some permissive
policy admits it, zero rows (not an error) otherwise. -/
def consultations_select (a : Actor) (c : Consultation) : Option Consultation :=
  if consultations_select_using a c then some c else none

/-- Row-level `SELECT` of one notification row. -/
def notifications_select (a : Actor) (n : Notification) : Option Notification :=
  if notifications_select_using a n then some n else none

/-- The Dashboard's mark-as-read update of one notification row
(`UPDATE notifications SET is_read = true`), gated by the notifications
update policy on the old and the new row. -/
def markNotificationRead (a : Actor) (n : Notification) : Option Notification :=
  if notifications_update_using a n then
    let n' : Notification := { n with is_read := true }
    if notifications_update_using a n' then some n' else none
  else none

/-- An `UPDATE public.profiles SET role = newRole` on the caller's chosen
row, gated by "Users can update their own profile" on old and new row; the
profiles `BEFORE UPDATE` trigger refreshes `updated_at`. -/
def updateProfileRole (a : Actor) (clock : Nat) (newRole : Role)
    (p : Profile) : Option Profile :=
  if profiles_update_using a p then
    let p' : Profile := { p with role := newRole, updated_at := clock }
    if profiles_update_using a p' then some p' else none
  else none

/-- The booking form state of the book-consultation page. -/
structure BookingForm where
  doctor_name : String
  consultation_type : ConsultationType
  preferred_date : String
  preferred_time : String
  symptoms : String
deriving DecidableEq, Repr

/-- The row produced by the booking page's insert: `handleSubmit` sends
`user_id` and the five form fields and nothing else, so every remaining
column takes its declared default — in particular
`amount DECIMAL(10,2) NOT NULL DEFAULT 50.00` regardless of
`consultation_type`. -/
def insertedConsultationRow (uid : Nat) (f : BookingForm) (clock newId : Nat) :
    Consultation :=
  { id := newId
  , user_id := uid
  , doctor_name := f.doctor_name
  , consultation_type := f.consultation_type
  , preferred_date := f.preferred_date
  , preferred_time := f.preferred_time
  , symptoms := f.symptoms
  , status := Status.pending
  , payment_status := PaymentStatus.unpaid
  , amount := 50
  , bank_account_id := none
  , admin_notes := none
  , created_at := clock
  , updated_at := clock }

/-- `handleSubmit` of the book-consultation page: insert the form for the
logged-in user, gated by "Users can create their own consultations". -/
def handleSubmit (a : Actor) (f : BookingForm) (clock newId : Nat) :
    Option Consultation :=
  let row := insertedConsultationRow a.uid f clock newId
  if consultations_insert_check a row then some row else none

/-- `getConsultationTypeAmount` of `Payment.tsx`: the per-kind fee table the
client displays. -/
def getConsultationTypeAmount : ConsultationType → Nat
  | ConsultationType.video_call => 50
  | ConsultationType.phone_call => 40
  | ConsultationType.chat => 30

/-- `confirmPayment` of `Payment.tsx`:
`UPDATE consultations SET payment_status = 'paid', bank_account_id = selectedBank WHERE id = ...`. -/
def confirmPayment (a : Actor) (clock : Nat) (selectedBank : Nat)
    (c : Consultation) : Option (Consultation × List Notification) :=
  applyUpdate a clock
    { set_status := none
    , set_payment_status := some PaymentStatus.paid
    , set_admin_notes := none
    , set_bank_account_id := some (some selectedBank)
    , set_user_id := none } c

/-- `updateConsultationStatus` of `AdminDashboard.tsx`:
`UPDATE consultations SET status = newStatus, admin_notes = adminNotes WHERE id = ...`
(the dashboard always sends the notes string, possibly `""`). -/
def updateConsultationStatus (a : Actor) (clock : Nat) (newStatus : Status)
    (adminNotes : String) (c : Consultation) :
    Option (Consultation × List Notification) :=
  applyUpdate a clock
    { set_status := some newStatus
    , set_payment_status := none
    , set_admin_notes := some (some adminNotes)
    , set_bank_account_id := none
    , set_user_id := none } c

/-! ## Concrete fixtures shared by witnesses and counterexamples -/

/-- A pending, unpaid consultation owned by user 1. -/
def cPending : Consultation :=
  { id := 10
  , user_id := 1
  , doctor_name := "Dr. Smith"
  , consultation_type := ConsultationType.video_call
  , preferred_date := "2025-09-20"
  , preferred_time := "10:00"
  , symptoms := "headache"
  , status := Status.pending
  , payment_status := PaymentStatus.unpaid
  , amount := 50
  , bank_account_id := none
  , admin_notes := none
  , created_at := 1
  , updated_at := 1 }

/-- The owner of `cPending`, a regular user. -/
def actorOwner : Actor := { uid := 1, role := Role.user }

/-- An administrator who owns nothing here. -/
def actorAdmin : Actor := { uid := 9, role := Role.admin }

/-- An unrelated regular user. -/
def actorStranger : Actor := { uid := 2, role := Role.user }

/-! ## Helper lemmas on the policy predicates -/

theorem consultations_update_using_iff (a : Actor) (c : Consultation) :
    consultations_update_using a c = true ↔
      (a.uid = c.user_id ∨ a.role = Role.admin) := by
  simp [consultations_update_using, get_current_user_role]

theorem consultations_update_check_iff (a : Actor) (c : Consultation) :
    consultations_update_check a c = true ↔
      (a.uid = c.user_id ∨ a.role = Role.admin) := by
  simp [consultations_update_check, get_current_user_role]

/-- Unpacking a successful `applyUpdate`: the stored row and the inserted
notifications, with the policy checks that had to pass. -/
theorem applyUpdate_eq_some {a : Actor} {clock : Nat} {u : ConsultationUpdate}
    {c c' : Consultation} {ns : List Notification}
    (h : applyUpdate a clock u c = some (c', ns)) :
    c' = update_updated_at_column clock (applySet u c) ∧
      ns = notify_consultation_status_change c c' clock ∧
      consultations_update_using a c = true ∧
      consultations_update_check a c' = true := by
  unfold applyUpdate at h
  by_cases h₁ : consultations_update_using a c = true
  · rw [if_pos h₁] at h
    by_cases h₂ :
        consultations_update_check a
          (update_updated_at_column clock (applySet u c)) = true
    · rw [if_pos h₂] at h
      obtain ⟨hc, hn⟩ := Prod.mk.injEq .. ▸ Option.some.injEq .. ▸ h
      subst hc
      exact ⟨rfl, hn.symm, h₁, h₂⟩
    · rw [if_neg h₂] at h
      exact absurd h (by simp)
  · rw [if_neg h₁] at h
    exact absurd h (by simp)

/-- The `SET` list of an admin approval with empty notes, as
`updateConsultationStatus` sends it. -/
def uApprove : ConsultationUpdate :=
  { set_status := some Status.approved
  , set_payment_status := none
  , set_admin_notes := some (some "")
  , set_bank_account_id := none
  , set_user_id := none }

/-- `cPending` after the admin approval `uApprove` at clock time 5. -/
def cApproved : Consultation :=
  { cPending with
      status := Status.approved
    , admin_notes := some ""
    , updated_at := 5 }

/-- The notification row the approval inserts. -/
def nApproved : Notification :=
  { user_id := 1
  , consultation_id := some 10
  , title := "Consultation Approved ✅"
  , message := "Your consultation request has been approved! You will receive further details soon."
  , is_read := false
  , created_at := 5 }

/-- `cPending` after an admin decline with empty notes at clock time 5. -/
def cDeclined : Consultation :=
  { cPending with
      status := Status.declined
    , admin_notes := some ""
    , updated_at := 5 }

/-- The notification row that decline inserts. -/
def nDeclined : Notification :=
  { user_id := 1
  , consultation_id := some 10
  , title := "Consultation Declined ❌"
  , message := "Your consultation request has been declined. Reason: "
  , is_read := false
  , created_at := 5 }

/-! ## C1: notification fires precisely on a status change to approved/declined -/

/-- C1: for every accepted consultation update, exactly one notification row
owned by the stored row's owner is inserted when the update changed `status`
and the new status is `approved` or `declined`; otherwise (in particular when
the same status value is re-applied) zero notification rows are inserted. -/
theorem C1_notification_iff_status_change
    (a : Actor) (clock : Nat) (u : ConsultationUpdate) (c c' : Consultation)
    (ns : List Notification)
    (h : applyUpdate a clock u c = some (c', ns)) :
    ((c'.status ≠ c.status ∧
        (c'.status = Status.approved ∨ c'.status = Status.declined)) →
      ns.length = 1 ∧ ∀ n ∈ ns, n.user_id = c'.user_id) ∧
    (¬(c'.status ≠ c.status ∧
        (c'.status = Status.approved ∨ c'.status = Status.declined)) →
      ns = []) := by
  obtain ⟨-, hns, -, -⟩ := applyUpdate_eq_some h
  subst hns
  unfold notify_consultation_status_change
  by_cases hcond : c'.status ≠ c.status ∧
      (c'.status = Status.approved ∨ c'.status = Status.declined)
  · rw [if_pos hcond]
    refine ⟨fun _ => ⟨rfl, ?_⟩, fun hn => absurd hcond hn⟩
    intro n hn
    rw [List.mem_singleton] at hn
    subst hn
    rfl
  · rw [if_neg hcond]
    exact ⟨fun hcc => absurd hcc hcond, fun _ => rfl⟩

/-- Witness for C1: a concrete admin approval of a pending consultation. -/
theorem C1_notification_iff_status_change_witness :
    applyUpdate actorAdmin 5 uApprove cPending = some (cApproved, [nApproved]) ∧
    (((cApproved.status ≠ cPending.status ∧
        (cApproved.status = Status.approved ∨
          cApproved.status = Status.declined)) →
      [nApproved].length = 1 ∧
        ∀ n ∈ [nApproved], n.user_id = cApproved.user_id) ∧
    (¬(cApproved.status ≠ cPending.status ∧
        (cApproved.status = Status.approved ∨
          cApproved.status = Status.declined)) →
      [nApproved] = [])) :=
  ⟨by decide,
   C1_notification_iff_status_change actorAdmin 5 uApprove cPending cApproved
     [nApproved] (by decide)⟩

/-! ## C2: content of the fired notification -/

/-- C2 (counterexample to the claim as stated): an admin declining a pending
consultation with an empty notes string yields a notification whose title is
"Consultation Declined ❌" — not "Consultation Declined" — and whose body,
although `admin_notes` is empty (not absent), ends with "Reason: " rather
than with the generic contact-support instruction the claim prescribes for
empty notes. -/
theorem C2_counterexample :
    (updateConsultationStatus actorAdmin 5 Status.declined "" cPending).map
        (fun r => (r.2.map Notification.title, r.2.map Notification.message)) =
      some (["Consultation Declined ❌"],
            ["Your consultation request has been declined. Reason: "]) ∧
    "Consultation Declined ❌" ≠ "Consultation Declined" ∧
    "Your consultation request has been declined. Reason: " ≠
      "Your consultation request has been declined. Please contact support for more information." := by
  refine ⟨by decide, by decide, by decide⟩

/-- C2 (amended): whenever the notification side-effect fires, its content is
determined by the new status together with the presence of `admin_notes`:
new status `approved` yields title "Consultation Approved ✅" and the fixed
confirmation body; new status `declined` yields title
"Consultation Declined ❌" and the fixed rejection body suffixed with
"Reason: {admin_notes}" whenever `admin_notes` is present (even when it is
the empty string), and suffixed with the generic contact-support instruction
only when `admin_notes` is absent (NULL). -/
theorem C2_notification_content
    (a : Actor) (clock : Nat) (u : ConsultationUpdate) (c c' : Consultation)
    (n : Notification) (ns : List Notification)
    (h : applyUpdate a clock u c = some (c', ns)) (hn : n ∈ ns) :
    (c'.status = Status.approved →
      n.title = "Consultation Approved ✅" ∧
      n.message =
        "Your consultation request has been approved! You will receive further details soon.") ∧
    (c'.status = Status.declined →
      n.title = "Consultation Declined ❌" ∧
      (∀ notes, c'.admin_notes = some notes →
        n.message =
          "Your consultation request has been declined. " ++
            ("Reason: " ++ notes)) ∧
      (c'.admin_notes = none →
        n.message =
          "Your consultation request has been declined. Please contact support for more information.")) := by
  obtain ⟨-, hns, -, -⟩ := applyUpdate_eq_some h
  subst hns
  unfold notify_consultation_status_change at hn
  by_cases hcond : c'.status ≠ c.status ∧
      (c'.status = Status.approved ∨ c'.status = Status.declined)
  · rw [if_pos hcond, List.mem_singleton] at hn
    subst hn
    constructor
    · intro hs
      constructor
      · show (if c'.status = Status.approved then _ else _) = _
        rw [if_pos hs]
      · show (if c'.status = Status.approved then _ else _) = _
        rw [if_pos hs]
    · intro hs
      have hna : ¬c'.status = Status.approved := by rw [hs]; intro hx; cases hx
      refine ⟨?_, ?_, ?_⟩
      · show (if c'.status = Status.approved then _ else _) = _
        rw [if_neg hna]
      · intro notes hnotes
        show (if c'.status = Status.approved then _ else _) = _
        rw [if_neg hna, hnotes]
      · intro hnone
        show (if c'.status = Status.approved then _ else _) = _
        rw [if_neg hna, hnone]
        rfl
  · rw [if_neg hcond] at hn
    cases hn

/-- Witness for C2: the concrete declined update of `C2_counterexample`,
whose notification content the amended rule predicts exactly. -/
theorem C2_notification_content_witness :
    updateConsultationStatus actorAdmin 5 Status.declined "" cPending =
      some (cDeclined, [nDeclined]) ∧
    ((cDeclined.status = Status.approved →
      nDeclined.title = "Consultation Approved ✅" ∧
      nDeclined.message =
        "Your consultation request has been approved! You will receive further details soon.") ∧
    (cDeclined.status = Status.declined →
      nDeclined.title = "Consultation Declined ❌" ∧
      (∀ notes, cDeclined.admin_notes = some notes →
        nDeclined.message =
          "Your consultation request has been declined. " ++
            ("Reason: " ++ notes)) ∧
      (cDeclined.admin_notes = none →
        nDeclined.message =
          "Your consultation request has been declined. Please contact support for more information."))) :=
  ⟨by decide,
   C2_notification_content actorAdmin 5
     { set_status := some Status.declined
     , set_payment_status := none
     , set_admin_notes := some (some "")
     , set_bank_account_id := none
     , set_user_id := none }
     cPending cDeclined nDeclined [nDeclined] (by decide)
     (List.mem_singleton.mpr rfl)⟩

/-- A successful update requires the policy `USING` on the old row and the
policy `WITH CHECK` on the triggered new row, and nothing else. -/
theorem applyUpdate_ne_none_iff (a : Actor) (clock : Nat)
    (u : ConsultationUpdate) (c : Consultation) :
    applyUpdate a clock u c ≠ none ↔
      (consultations_update_using a c = true ∧
        consultations_update_check a
          (update_updated_at_column clock (applySet u c)) = true) := by
  simp only [applyUpdate]
  split_ifs with h₁ h₂ <;> simp_all

/-! ## C3: who may perform the pending → approved / declined transitions -/

/-- C3 (counterexample to the claim as stated): the consultation's owner,
whose role is not admin, successfully sets their own pending consultation to
`approved` — the update policies restrict rows, not columns. -/
theorem C3_counterexample :
    actorOwner.role ≠ Role.admin ∧
    actorOwner.uid = cPending.user_id ∧
    cPending.status = Status.pending ∧
    (updateConsultationStatus actorOwner 5 Status.approved "" cPending).map
        (fun r => r.1.status) = some Status.approved :=
  ⟨by decide, by decide, by decide, by decide⟩

/-- C3 (amended): for a pending consultation, an actor whose role is not
admin can perform the transition to `approved` or `declined` exactly when
that actor is the consultation's owner; any actor who is neither admin nor
the owner is denied, and the denial leaves the stored record unchanged. -/
theorem C3_nonadmin_transition_iff_owner
    (a : Actor) (clock : Nat) (s : Status) (notes : String) (c : Consultation)
    (hrole : a.role ≠ Role.admin) (hpend : c.status = Status.pending)
    (hs : s = Status.approved ∨ s = Status.declined) :
    (updateConsultationStatus a clock s notes c ≠ none ↔
      a.uid = c.user_id) ∧
    (a.uid ≠ c.user_id →
      rowAfterUpdate a clock
        { set_status := some s
        , set_payment_status := none
        , set_admin_notes := some (some notes)
        , set_bank_account_id := none
        , set_user_id := none } c = c) := by
  have hmain : updateConsultationStatus a clock s notes c ≠ none ↔
      a.uid = c.user_id := by
    unfold updateConsultationStatus
    rw [applyUpdate_ne_none_iff, consultations_update_using_iff,
      consultations_update_check_iff]
    simp [update_updated_at_column, applySet, hrole]
  refine ⟨hmain, fun hnot => ?_⟩
  have hnone : updateConsultationStatus a clock s notes c = none := by
    by_contra hx
    exact hnot (hmain.mp hx)
  unfold updateConsultationStatus at hnone
  simp only [rowAfterUpdate, hnone]

/-- Witness for C3 (amended): a stranger with role `user` is denied, at a
concrete pending consultation they do not own. -/
theorem C3_nonadmin_transition_iff_owner_witness :
    actorStranger.role ≠ Role.admin ∧
    cPending.status = Status.pending ∧
    ((updateConsultationStatus actorStranger 5 Status.approved "" cPending ≠
        none ↔ actorStranger.uid = cPending.user_id) ∧
     (actorStranger.uid ≠ cPending.user_id →
       rowAfterUpdate actorStranger 5
        { set_status := some Status.approved
        , set_payment_status := none
        , set_admin_notes := some (some "")
        , set_bank_account_id := none
        , set_user_id := none } cPending = cPending)) :=
  ⟨by decide, by decide,
   C3_nonadmin_transition_iff_owner actorStranger 5 Status.approved ""
     cPending (by decide) (by decide) (Or.inl rfl)⟩

/-! ## C4: who may read a consultation -/

/-- C4: a row-level read of consultation `c` by actor `a` returns the row
exactly when `a` is the owner or an admin, and returns zero rows (not an
error) otherwise. -/
theorem C4_consultation_read_iff (a : Actor) (c : Consultation) :
    (consultations_select a c = some c ↔
      (a.uid = c.user_id ∨ a.role = Role.admin)) ∧
    (consultations_select a c = none ↔
      ¬(a.uid = c.user_id ∨ a.role = Role.admin)) := by
  unfold consultations_select consultations_select_using get_current_user_role
  by_cases h1 : a.uid = c.user_id ∨ a.role = Role.admin
  · rw [if_pos (by simpa using h1)]
    simp [h1]
  · rw [if_neg (by simpa using h1)]
    simp [h1]

/-! ## C5: the stored amount of a consultation created without an amount -/

/-- The booking form of a chat consultation. -/
def chatForm : BookingForm :=
  { doctor_name := "Dr. Smith"
  , consultation_type := ConsultationType.chat
  , preferred_date := "2025-09-20"
  , preferred_time := "10:00"
  , symptoms := "cough" }

/-- C5: the booking insert sends no amount, so a chat consultation is stored
with the unconditional column default 50 — not the 30 that the code's own
per-kind fee table (`getConsultationTypeAmount`, and the prices displayed by
the booking page) assigns to chat.  The video_call case of the claim holds
only because the flat default coincides with the video_call fee. -/
theorem C5_chat_amount_flat_default :
    (handleSubmit actorStranger chatForm 3 11).map Consultation.amount =
      some 50 ∧
    getConsultationTypeAmount ConsultationType.chat = 30 ∧
    (50 : Nat) ≠ 30 ∧
    getConsultationTypeAmount ConsultationType.video_call = 50 :=
  ⟨by decide, by decide, by decide, by decide⟩

/-! ## C6: updated_at is refreshed by every accepted update -/

/-- C6: with the store clock strictly after the row's current `updated_at`
(successive transactions observe increasing `now()`), every accepted update
strictly increases `updated_at` — the `BEFORE UPDATE` trigger overwrites it
with the clock — and a rejected (zero-row) update leaves the stored row,
hence its `updated_at`, unchanged. -/
theorem C6_updated_at_strictly_increases
    (a : Actor) (clock : Nat) (u : ConsultationUpdate) (c : Consultation)
    (hclock : c.updated_at < clock) :
    (applyUpdate a clock u c ≠ none →
      c.updated_at < (rowAfterUpdate a clock u c).updated_at) ∧
    (applyUpdate a clock u c = none → rowAfterUpdate a clock u c = c) := by
  by_cases hne : applyUpdate a clock u c = none
  · refine ⟨fun hx => absurd hne hx, fun _ => ?_⟩
    simp only [rowAfterUpdate, hne]
  · obtain ⟨r, h⟩ := Option.ne_none_iff_exists'.mp hne
    obtain ⟨c', ns⟩ := r
    obtain ⟨hc', -, -, -⟩ := applyUpdate_eq_some h
    refine ⟨fun _ => ?_, fun hx => absurd hx hne⟩
    simp only [rowAfterUpdate, h]
    rw [hc']
    simpa [update_updated_at_column] using hclock

/-- Witness for C6: a concrete admin approval at clock time 5 of a row last
written at time 1. -/
theorem C6_updated_at_strictly_increases_witness :
    cPending.updated_at < 5 ∧
    ((applyUpdate actorAdmin 5 uApprove cPending ≠ none →
      cPending.updated_at <
        (rowAfterUpdate actorAdmin 5 uApprove cPending).updated_at) ∧
    (applyUpdate actorAdmin 5 uApprove cPending = none →
      rowAfterUpdate actorAdmin 5 uApprove cPending = cPending)) :=
  ⟨by decide,
   C6_updated_at_strictly_increases actorAdmin 5 uApprove cPending (by decide)⟩

/-! ## C7: immutability of the owning-user column -/

/-- Ownership reassignment sent by an admin: `SET user_id = 2`. -/
def uReassign : ConsultationUpdate :=
  { set_status := none
  , set_payment_status := none
  , set_admin_notes := none
  , set_bank_account_id := none
  , set_user_id := some 2 }

/-- C7 (counterexample to the claim as stated): an administrator's update
that sets `user_id` to another user is accepted — the admin update policy's
implicit `WITH CHECK` tests only the caller's role — so the stored row's
owner changes from user 1 to user 2. -/
theorem C7_counterexample :
    cPending.user_id = 1 ∧
    (applyUpdate actorAdmin 5 uReassign cPending).map (fun r => r.1.user_id) =
      some 2 ∧
    (1 : Nat) ≠ 2 :=
  ⟨by decide, by decide, by decide⟩

/-- C7 (amended): after any accepted update performed by a non-admin actor,
the stored row's `user_id` equals its value before the update (the owner
policy's implicit `WITH CHECK` pins the new row's `user_id` to the caller,
who must already be the owner); an administrator's update, however, can
change `user_id`. -/
theorem C7_nonadmin_preserves_user_id
    (a : Actor) (clock : Nat) (u : ConsultationUpdate) (c c' : Consultation)
    (ns : List Notification) (hrole : a.role ≠ Role.admin)
    (h : applyUpdate a clock u c = some (c', ns)) :
    c'.user_id = c.user_id := by
  obtain ⟨-, -, husing, hcheck⟩ := applyUpdate_eq_some h
  rw [consultations_update_using_iff] at husing
  rw [consultations_update_check_iff] at hcheck
  rcases husing with h1 | h1
  · rcases hcheck with h2 | h2
    · rw [← h2, ← h1]
    · exact absurd h2 hrole
  · exact absurd h1 hrole

/-- The owner's payment confirmation as a `SET` list: bank account 3. -/
def uPay : ConsultationUpdate :=
  { set_status := none
  , set_payment_status := some PaymentStatus.paid
  , set_admin_notes := none
  , set_bank_account_id := some (some 3)
  , set_user_id := none }

/-- `cPending` after the owner confirms payment at clock time 5. -/
def cPaid : Consultation :=
  { cPending with
      payment_status := PaymentStatus.paid
    , bank_account_id := some 3
    , updated_at := 5 }

/-- Witness for C7 (amended): the owner's concrete payment confirmation
leaves `user_id` at its creation value. -/
theorem C7_nonadmin_preserves_user_id_witness :
    cPaid.user_id = cPending.user_id :=
  C7_nonadmin_preserves_user_id actorOwner 5 uPay cPending cPaid []
    (by decide) (by decide)

/-! ## C8: notifications are visible and writable only to their owner -/

/-- C8: reading a notification returns the row exactly when the actor is its
owner, and marking it read succeeds (storing the row with `is_read = true`)
exactly when the actor is its owner; since the predicate tests only the
actor's id, an administrator who is not the owner gets zero rows — there is
no admin override for notifications. -/
theorem C8_notifications_owner_only (a : Actor) (n : Notification) :
    (notifications_select a n = some n ↔ a.uid = n.user_id) ∧
    (notifications_select a n = none ↔ a.uid ≠ n.user_id) ∧
    (∀ n', markNotificationRead a n = some n' ↔
      (a.uid = n.user_id ∧ n' = { n with is_read := true })) ∧
    (markNotificationRead a n = none ↔ a.uid ≠ n.user_id) := by
  unfold notifications_select markNotificationRead notifications_select_using
    notifications_update_using
  by_cases hx : a.uid = n.user_id
  · simp [hx, eq_comm]
  · simp [hx]

/-! ## C9: a regular user can escalate their own profile role -/

/-- C9: the profile update policy tests only which row is touched, so an
actor with role `user` updating their own profile row to `role = 'admin'`
is permitted and the escalation is stored (the profiles `BEFORE UPDATE`
trigger also refreshes `updated_at`). -/
theorem C9_owner_can_escalate_role
    (a : Actor) (clock : Nat) (p : Profile)
    (hown : a.uid = p.user_id) (hrole : a.role = Role.user) :
    updateProfileRole a clock Role.admin p =
      some { p with role := Role.admin, updated_at := clock } := by
  unfold updateProfileRole profiles_update_using
  simp [hown]

/-- The provisioning-time profile of user 1, role `user`. -/
def pOwner : Profile :=
  { user_id := 1
  , full_name := some "Pat"
  , role := Role.user
  , created_at := 0
  , updated_at := 0 }

/-- Witness for C9: user 1 escalates their own concrete profile. -/
theorem C9_owner_can_escalate_role_witness :
    updateProfileRole actorOwner 5 Role.admin pOwner =
      some { pOwner with role := Role.admin, updated_at := 5 } :=
  C9_owner_can_escalate_role actorOwner 5 pOwner (by decide) (by decide)

/-! ## C10: confirm-payment has no status / payment-status precondition -/

/-- C10: for any consultation the actor owns — whatever its current status
and payment status, including `declined`, `cancelled`, already-`paid` or
`refunded` rows — `confirmPayment` is accepted, stores
`payment_status = 'paid'` with the chosen bank account, and fires no
notification (status is unchanged). -/
theorem C10_confirm_payment_unconditional
    (a : Actor) (clock : Nat) (bank : Nat) (c : Consultation)
    (hown : a.uid = c.user_id) :
    confirmPayment a clock bank c =
      some ({ c with
                payment_status := PaymentStatus.paid
              , bank_account_id := some bank
              , updated_at := clock }, []) := by
  unfold confirmPayment applyUpdate
  have husing : consultations_update_using a c = true := by
    simp [consultations_update_using, hown]
  rw [if_pos husing]
  show (if consultations_update_check a
            (update_updated_at_column clock (applySet _ c)) = true then _
        else _) = _
  have hcheck : consultations_update_check a
      (update_updated_at_column clock (applySet
        { set_status := none
        , set_payment_status := some PaymentStatus.paid
        , set_admin_notes := none
        , set_bank_account_id := some (some bank)
        , set_user_id := none } c)) = true := by
    simp [consultations_update_check, update_updated_at_column, applySet, hown]
  rw [if_pos hcheck]
  have hrow : update_updated_at_column clock (applySet
      { set_status := none
      , set_payment_status := some PaymentStatus.paid
      , set_admin_notes := none
      , set_bank_account_id := some (some bank)
      , set_user_id := none } c) =
      { c with
          payment_status := PaymentStatus.paid
        , bank_account_id := some bank
        , updated_at := clock } := rfl
  rw [hrow]
  have hns : notify_consultation_status_change c
      { c with
          payment_status := PaymentStatus.paid
        , bank_account_id := some bank
        , updated_at := clock } clock = [] := by
    unfold notify_consultation_status_change
    rw [if_neg]
    intro hcc
    exact hcc.1 rfl
  rw [hns]

/-- A declined, already-paid consultation owned by user 1: `confirmPayment`
still succeeds on it. -/
def cDeclinedPaid : Consultation :=
  { cPending with
      status := Status.declined
    , payment_status := PaymentStatus.paid
    , updated_at := 2 }

/-- Witness for C10: the owner re-confirms payment on a concrete declined,
already-paid consultation. -/
theorem C10_confirm_payment_unconditional_witness :
    confirmPayment actorOwner 6 3 cDeclinedPaid =
      some ({ cDeclinedPaid with
                payment_status := PaymentStatus.paid
              , bank_account_id := some 3
              , updated_at := 6 }, []) :=
  C10_confirm_payment_unconditional actorOwner 6 3 cDeclinedPaid (by decide)

end HealthLink
